import Mathlib

/-!
Verification of the metrics aggregation and scoring engine of the
transformation-tracker repository (src/src/transformation/calculators.py).

The engine works on pandas dataframes of floats.  The embedding models a
float column value as `EFloat`: an exact rational, `+inf`, `-inf` or `nan`,
with IEEE-style division, multiplication, subtraction and comparisons
(every comparison involving `nan` is false).  A metric column that may be
missing after a left merge (the merged aggregate is `NaN` for an initiative
with no samples) is modelled as `Option ℚ` at the row level, `none`
standing for the missing/NaN cell.  Datetimes are modelled as day numbers:
`ℤ` for input dates, `ℚ` for the extrapolated prediction (pandas accepts a
fractional `timedelta`).
-/

namespace TransformationTracker

/-- Status enum of an initiative (`Planning/In Progress/At Risk/Completed/On Hold`). -/
inductive Status where
  | planning
  | inProgress
  | atRisk
  | completed
  | onHold
deriving DecidableEq

/-- The `health_status` classification values. -/
inductive HealthLevel where
  | excellent
  | good
  | warning
  | critical
deriving DecidableEq

/-- A float cell: an exact rational, an infinity, or NaN. -/
inductive EFloat where
  | val (q : ℚ)
  | pinf
  | ninf
  | nan
deriving DecidableEq

namespace EFloat

/-- IEEE `<=` on float cells: any comparison with NaN is false. -/
def leb : EFloat → EFloat → Bool
  | nan, _ => false
  | _, nan => false
  | val a, val b => a ≤ b
  | val _, pinf => true
  | val _, ninf => false
  | pinf, pinf => true
  | pinf, _ => false
  | ninf, _ => true

/-- IEEE `<` on float cells: any comparison with NaN is false. -/
def ltb : EFloat → EFloat → Bool
  | nan, _ => false
  | _, nan => false
  | val a, val b => a < b
  | val _, pinf => true
  | val _, ninf => false
  | pinf, _ => false
  | ninf, ninf => false
  | ninf, _ => true

/-- IEEE division: finite/0 is a signed infinity, 0/0 is NaN (numpy
true-divide semantics; the RuntimeWarning is suppressed in the source). -/
def div : EFloat → EFloat → EFloat
  | nan, _ => nan
  | _, nan => nan
  | val a, val b =>
      if b = 0 then (if a = 0 then nan else if 0 < a then pinf else ninf)
      else val (a / b)
  | val _, pinf => val 0
  | val _, ninf => val 0
  | pinf, val b => if 0 ≤ b then pinf else ninf
  | ninf, val b => if 0 ≤ b then ninf else pinf
  | pinf, _ => nan
  | ninf, _ => nan

/-- IEEE multiplication (0 times an infinity is NaN). -/
def mul : EFloat → EFloat → EFloat
  | nan, _ => nan
  | _, nan => nan
  | val a, val b => val (a * b)
  | val a, pinf => if a = 0 then nan else if 0 < a then pinf else ninf
  | val a, ninf => if a = 0 then nan else if 0 < a then ninf else pinf
  | pinf, val b => if b = 0 then nan else if 0 < b then pinf else ninf
  | ninf, val b => if b = 0 then nan else if 0 < b then ninf else pinf
  | pinf, pinf => pinf
  | pinf, ninf => ninf
  | ninf, pinf => ninf
  | ninf, ninf => pinf

/-- IEEE subtraction (inf minus inf is NaN). -/
def sub : EFloat → EFloat → EFloat
  | nan, _ => nan
  | _, nan => nan
  | val a, val b => val (a - b)
  | val _, pinf => ninf
  | val _, ninf => pinf
  | pinf, val _ => pinf
  | ninf, val _ => ninf
  | pinf, pinf => nan
  | pinf, ninf => pinf
  | ninf, pinf => ninf
  | ninf, ninf => nan

/-- The finite payload, if any (`none` for NaN and the infinities; feeding a
non-finite float to `timedelta` raises in the source, so a date computed
from one is modelled as `none`). -/
def toOption : EFloat → Option ℚ
  | val q => some q
  | _ => none

end EFloat

/-- Division of two float columns, as pandas/numpy perform it. -/
def fdiv (a b : ℚ) : EFloat := EFloat.div (EFloat.val a) (EFloat.val b)

/-- Python builtin `max(a, b)`: returns `b` only when `b > a` (so
`max(nan, c) = nan`). -/
def pymax (a b : EFloat) : EFloat := if EFloat.ltb a b then b else a

/-- `x < c` on a possibly-missing float cell: a missing (NaN) cell compares
false, exactly as `row.get` returning the merged NaN column value does. -/
def col_lt (x : Option ℚ) (c : ℚ) : Bool :=
  match x with
  | some v => decide (v < c)
  | none => false

/-- `x <= c` on a possibly-missing float cell (NaT/NaN compares false). -/
def col_le (x : Option ℚ) (c : ℚ) : Bool :=
  match x with
  | some v => decide (v ≤ c)
  | none => false

/-- An input row of the initiatives table (the fields the engine reads). -/
structure Initiative where
  name : String
  start_date : ℤ
  target_end_date : ℤ
  budget_allocated : ℚ
  budget_spent : ℚ
  status : Status
deriving DecidableEq

/-- A row of the `health_df` frame produced by
`calculate_initiative_health_scores`: the initiative's own columns plus
every derived column.  The `roi_percentage`, `efficiency_gain_percentage`,
`quality_score` and `employee_satisfaction` columns come from left merges
of per-initiative aggregates, so they are `none` (NaN) for an initiative
with no matching samples. -/
structure HealthRow where
  name : String
  status : Status
  budget_allocated : ℚ
  budget_spent : ℚ
  budget_utilization : EFloat
  budget_score : ℚ
  days_since_start : ℤ
  total_duration : ℤ
  time_progress : EFloat
  time_score : ℚ
  roi_percentage : Option ℚ
  efficiency_gain_percentage : Option ℚ
  quality_score : Option ℚ
  employee_satisfaction : Option ℚ
  financial_score : ℚ
  operational_score : ℚ
  health_score : ℚ
  health_status : HealthLevel
  predicted_completion_date : Option ℚ
  risk_factors : List String
deriving DecidableEq

/-- Budget score lambda (calculators.py lines 62-66), applied to the
`budget_utilization` float column. -/
def budget_score (u : EFloat) : ℚ :=
  if EFloat.leb (EFloat.val (8/10)) u && EFloat.leb u (EFloat.val 1) then 25
  else if (EFloat.leb (EFloat.val (6/10)) u && EFloat.ltb u (EFloat.val (8/10)))
      || (EFloat.ltb (EFloat.val 1) u && EFloat.leb u (EFloat.val (11/10))) then 20
  else if (EFloat.leb (EFloat.val (4/10)) u && EFloat.ltb u (EFloat.val (6/10)))
      || (EFloat.ltb (EFloat.val (11/10)) u && EFloat.leb u (EFloat.val (12/10))) then 10
  else 0

/-- Time score lambda (calculators.py lines 77-83). -/
def time_score (status : Status) (tp : EFloat) : ℚ :=
  if status = Status.completed then 25
  else if EFloat.leb tp (EFloat.val (9/10)) then 20
  else if EFloat.leb tp (EFloat.val 1) then 15
  else if EFloat.leb tp (EFloat.val (12/10)) then 5
  else 0

/-- Financial score (calculators.py lines 94-100): the merged mean
`roi_percentage` column with `fillna(0)` applied, then banded. -/
def financial_score (roi : Option ℚ) : ℚ :=
  let x := roi.getD 0
  if 20 ≤ x then 30
  else if 15 ≤ x then 25
  else if 10 ≤ x then 20
  else if 5 ≤ x then 15
  else if 0 ≤ x then 10
  else 0

/-- Operational score (calculators.py lines 111-115): fillna defaults
0/80/7, weighted composite, then `min(20, max(0, x))`. -/
def operational_score (eff quality sat : Option ℚ) : ℚ :=
  let x := eff.getD 0 * (4/10) + quality.getD 80 * (2/10) + sat.getD 7 * 2
  min 20 (max 0 x)

/-- Health status classification lambda (calculators.py lines 126-131). -/
def health_status_of (x : ℚ) : HealthLevel :=
  if 80 ≤ x then HealthLevel.excellent
  else if 65 ≤ x then HealthLevel.good
  else if 50 ≤ x then HealthLevel.warning
  else HealthLevel.critical

/-- `_predict_completion_date` (calculators.py lines 258-269).  The result
is `none` when `timedelta(days=...)` would be fed a non-finite float and
raise; under the `time_progress > 0` guard that never happens. -/
def predict_completion_date (status : Status) (tp : EFloat) (days : ℤ)
    (start target : ℤ) : Option ℚ :=
  if status = Status.completed then some (target : ℚ)
  else if EFloat.ltb (EFloat.val 0) tp then
    (EFloat.div (EFloat.val (days : ℚ)) (pymax tp (EFloat.val (1/10)))).toOption.map
      (fun q => (start : ℚ) + q)
  else some (target : ℚ)

/-- `_identify_risk_factors` (calculators.py lines 271-287).  The row
always carries the merged `roi_percentage` and `employee_satisfaction`
columns, so `row.get` returns the cell (possibly NaN = `none`), whose
comparison against the threshold is then false. -/
def identify_risk_factors (bu tp : EFloat) (status : Status)
    (roi sat : Option ℚ) : List String :=
  let risks : List String := []
  let risks := if EFloat.ltb (EFloat.val (11/10)) bu
    then risks ++ ["Budget Overrun"] else risks
  let risks := if EFloat.ltb (EFloat.val 1) tp && decide (status ≠ Status.completed)
    then risks ++ ["Schedule Delay"] else risks
  let risks := if col_lt roi 5 then risks ++ ["Low ROI"] else risks
  let risks := if col_lt sat 6 then risks ++ ["Team Satisfaction"] else risks
  risks

/-- One row of `calculate_initiative_health_scores` (calculators.py lines
50-142): the columns are computed per row, the merged aggregates entering
as the four `Option ℚ` arguments (mean ROI, mean efficiency gain, mean
quality, mean employee satisfaction; `none` when the left merge matched no
samples). -/
def initiative_health_row (today : ℤ) (init : Initiative)
    (roi eff quality sat : Option ℚ) : HealthRow :=
  let bu := fdiv init.budget_spent init.budget_allocated
  let days : ℤ := today - init.start_date
  let dur : ℤ := init.target_end_date - init.start_date
  let tp := fdiv (days : ℚ) (dur : ℚ)
  let bscore := budget_score bu
  let tscore := time_score init.status tp
  let fscore := financial_score roi
  let oscore := operational_score eff quality sat
  let hscore := bscore + tscore + fscore + oscore
  { name := init.name
    status := init.status
    budget_allocated := init.budget_allocated
    budget_spent := init.budget_spent
    budget_utilization := bu
    budget_score := bscore
    days_since_start := days
    total_duration := dur
    time_progress := tp
    time_score := tscore
    roi_percentage := roi
    efficiency_gain_percentage := eff
    quality_score := quality
    employee_satisfaction := sat
    financial_score := fscore
    operational_score := oscore
    health_score := hscore
    health_status := health_status_of hscore
    predicted_completion_date :=
      predict_completion_date init.status tp days init.start_date init.target_end_date
    risk_factors := identify_risk_factors bu tp init.status roi sat }

/-- A row of the raw financial-metrics table, as read by
`calculate_portfolio_metrics` (only the summed columns are consumed). -/
structure FinSample where
  revenue_impact : ℚ
  cost_reduction : ℚ
deriving DecidableEq

/-- The portfolio metrics record built by `calculate_portfolio_metrics`
(calculators.py lines 144-208).  `budget_utilization_rate` and
`portfolio_roi` are float cells: the source divides the column sums with no
zero guard, so they may be NaN or an infinity.
(The `performance_by_type` group-by table is not needed by any claim and is
not modelled.) -/
structure PortfolioMetrics where
  total_initiatives : ℕ
  active_initiatives : ℕ
  completed_initiatives : ℕ
  total_budget_allocated : ℚ
  total_budget_spent : ℚ
  budget_utilization_rate : EFloat
  total_financial_impact : ℚ
  portfolio_roi : EFloat
  dist_excellent : ℕ
  dist_good : ℕ
  dist_warning : ℕ
  dist_critical : ℕ
  at_risk_count : ℕ
  at_risk_total_budget : ℚ
  at_risk_names : List String
  upcoming_count : ℕ
  upcoming_names : List String
deriving DecidableEq

/-- `calculate_portfolio_metrics` (calculators.py lines 144-208).  `now` is
the `datetime.now()` read for the upcoming-completions filter. -/
def calculate_portfolio_metrics (now : ℚ) (health_rows : List HealthRow)
    (financial_rows : List FinSample) : PortfolioMetrics :=
  let total_budget_allocated := (health_rows.map (fun r => r.budget_allocated)).sum
  let total_budget_spent := (health_rows.map (fun r => r.budget_spent)).sum
  let total_revenue_impact := (financial_rows.map (fun s => s.revenue_impact)).sum
  let total_cost_reduction := (financial_rows.map (fun s => s.cost_reduction)).sum
  let total_financial_impact := total_revenue_impact + total_cost_reduction
  let at_risk := health_rows.filter (fun r => decide (r.health_score < 50))
  let upcoming := health_rows.filter
    (fun r => col_le r.predicted_completion_date (now + 30))
  { total_initiatives := health_rows.length
    active_initiatives := (health_rows.filter
      (fun r => decide (r.status = Status.inProgress ∨ r.status = Status.atRisk))).length
    completed_initiatives := (health_rows.filter
      (fun r => decide (r.status = Status.completed))).length
    total_budget_allocated := total_budget_allocated
    total_budget_spent := total_budget_spent
    budget_utilization_rate :=
      EFloat.mul (fdiv total_budget_spent total_budget_allocated) (EFloat.val 100)
    total_financial_impact := total_financial_impact
    portfolio_roi :=
      EFloat.mul (EFloat.sub (fdiv total_financial_impact total_budget_spent)
        (EFloat.val 1)) (EFloat.val 100)
    dist_excellent := (health_rows.filter
      (fun r => decide (r.health_status = HealthLevel.excellent))).length
    dist_good := (health_rows.filter
      (fun r => decide (r.health_status = HealthLevel.good))).length
    dist_warning := (health_rows.filter
      (fun r => decide (r.health_status = HealthLevel.warning))).length
    dist_critical := (health_rows.filter
      (fun r => decide (r.health_status = HealthLevel.critical))).length
    at_risk_count := at_risk.length
    at_risk_total_budget :=
      if at_risk.length > 0 then (at_risk.map (fun r => r.budget_allocated)).sum else 0
    at_risk_names := at_risk.map (fun r => r.name)
    upcoming_count := upcoming.length
    upcoming_names := upcoming.map (fun r => r.name) }

/-- One row of the executive summary frame. -/
structure SummaryRow where
  metric_name : String
  status : String
  action_required : String
deriving DecidableEq

/-- `create_executive_summary` (calculators.py lines 210-256).  Python true
division of the ints `completed_initiatives / total_initiatives` raises
`ZeroDivisionError` when the denominator is 0, so the function is modelled
as `none` there: it returns no frame. -/
def create_executive_summary (pm : PortfolioMetrics) : Option (List SummaryRow) :=
  let roi_row : SummaryRow :=
    { metric_name := "Portfolio ROI"
      status := if EFloat.ltb (EFloat.val 15) pm.portfolio_roi then "Good" else "Warning"
      action_required := if EFloat.ltb (EFloat.val 15) pm.portfolio_roi then "None"
        else "Review underperforming initiatives" }
  let budget_row : SummaryRow :=
    { metric_name := "Budget Utilization"
      status := if EFloat.leb (EFloat.val 80) pm.budget_utilization_rate
          && EFloat.leb pm.budget_utilization_rate (EFloat.val 100) then "Good"
        else "Warning"
      action_required := if EFloat.leb (EFloat.val 80) pm.budget_utilization_rate
          && EFloat.leb pm.budget_utilization_rate (EFloat.val 100) then "None"
        else "Budget reallocation needed" }
  let at_risk_row : SummaryRow :=
    { metric_name := "At-Risk Initiatives"
      status := if (pm.total_initiatives : ℚ) * (3/10) < (pm.at_risk_count : ℚ)
        then "Critical" else "Good"
      action_required := if 0 < pm.at_risk_count
        then "Immediate intervention required" else "None" }
  if pm.total_initiatives = 0 then none
  else
    let completion_rate : ℚ :=
      ((pm.completed_initiatives : ℚ) / (pm.total_initiatives : ℚ)) * 100
    let completion_row : SummaryRow :=
      { metric_name := "Completion Rate"
        status := if 60 < completion_rate then "Good" else "Warning"
        action_required := if completion_rate < 60 then "Accelerate delivery" else "None" }
    some [roi_row, budget_row, at_risk_row, completion_row]

/-! Spec-side definitions, written from the specification's words, for the
refinement-style claims that compare the code's banding against the spec's
piecewise description. -/

/-- Budget-score bands exactly as the spec states them, on a real (finite)
utilization ratio. -/
def budget_score_spec (u : ℚ) : ℚ :=
  if 8/10 ≤ u ∧ u ≤ 1 then 25
  else if (6/10 ≤ u ∧ u < 8/10) ∨ (1 < u ∧ u ≤ 11/10) then 20
  else if (4/10 ≤ u ∧ u < 6/10) ∨ (11/10 < u ∧ u ≤ 12/10) then 10
  else 0

/-- Time-score bands exactly as the spec states them, on a real (finite)
time progress of a non-Completed initiative. -/
def time_band_spec (q : ℚ) : ℚ :=
  if q ≤ 9/10 then 20
  else if q ≤ 1 then 15
  else if q ≤ 12/10 then 5
  else 0

/-! Band lemmas: each sub-score lies in its advertised band. -/

lemma budget_score_bounds (u : EFloat) : 0 ≤ budget_score u ∧ budget_score u ≤ 25 := by
  unfold budget_score
  split_ifs <;> norm_num

lemma time_score_bounds (status : Status) (tp : EFloat) :
    0 ≤ time_score status tp ∧ time_score status tp ≤ 25 := by
  unfold time_score
  split_ifs <;> norm_num

lemma financial_score_bounds (roi : Option ℚ) :
    0 ≤ financial_score roi ∧ financial_score roi ≤ 30 := by
  simp only [financial_score]
  split_ifs <;> norm_num

lemma operational_score_bounds (eff quality sat : Option ℚ) :
    0 ≤ operational_score eff quality sat ∧ operational_score eff quality sat ≤ 20 := by
  unfold operational_score
  exact ⟨le_min (by norm_num) (le_max_left 0 _), min_le_left _ _⟩

/-! Classification lemmas for `health_status_of`. -/

lemma health_status_of_excellent_iff (x : ℚ) :
    health_status_of x = HealthLevel.excellent ↔ 80 ≤ x := by
  unfold health_status_of
  split_ifs <;> simp_all

lemma health_status_of_good_iff (x : ℚ) :
    health_status_of x = HealthLevel.good ↔ 65 ≤ x ∧ x < 80 := by
  unfold health_status_of
  split_ifs with h1 h2 h3
  · simp only [reduceCtorEq, false_iff]
    rintro ⟨-, h⟩
    linarith
  · simp only [true_iff]
    exact ⟨h2, by linarith [lt_of_not_le h1]⟩
  · simp only [reduceCtorEq, false_iff]
    rintro ⟨h65, -⟩
    exact h2 h65
  · simp only [reduceCtorEq, false_iff]
    rintro ⟨h65, -⟩
    exact h2 h65

lemma health_status_of_warning_iff (x : ℚ) :
    health_status_of x = HealthLevel.warning ↔ 50 ≤ x ∧ x < 65 := by
  unfold health_status_of
  split_ifs with h1 h2 h3
  · simp only [reduceCtorEq, false_iff]
    rintro ⟨-, h⟩
    linarith
  · simp only [reduceCtorEq, false_iff]
    rintro ⟨-, h⟩
    linarith
  · simp only [true_iff]
    exact ⟨h3, lt_of_not_le h2⟩
  · simp only [reduceCtorEq, false_iff]
    rintro ⟨h50, -⟩
    exact h3 h50

lemma health_status_of_critical_iff (x : ℚ) :
    health_status_of x = HealthLevel.critical ↔ x < 50 := by
  unfold health_status_of
  split_ifs with h1 h2 h3
  · simp only [reduceCtorEq, false_iff]
    intro h
    linarith
  · simp only [reduceCtorEq, false_iff]
    intro h
    linarith
  · simp only [reduceCtorEq, false_iff]
    intro h
    linarith
  · simp only [true_iff]
    exact lt_of_not_le h3

/-- C1: for every initiative row produced by
`calculate_initiative_health_scores`, `health_score` is exactly the sum
`budget_score + time_score + financial_score + operational_score`, each
sub-score lies in its band (budget 0-25, time 0-25, financial 0-30,
operational clamped to 0-20), and therefore `0 ≤ health_score ≤ 100`. -/
theorem C1_health_score_sum_and_bounds (today : ℤ) (init : Initiative)
    (roi eff quality sat : Option ℚ) :
    (initiative_health_row today init roi eff quality sat).health_score
        = (initiative_health_row today init roi eff quality sat).budget_score
          + (initiative_health_row today init roi eff quality sat).time_score
          + (initiative_health_row today init roi eff quality sat).financial_score
          + (initiative_health_row today init roi eff quality sat).operational_score
      ∧ 0 ≤ (initiative_health_row today init roi eff quality sat).budget_score
      ∧ (initiative_health_row today init roi eff quality sat).budget_score ≤ 25
      ∧ 0 ≤ (initiative_health_row today init roi eff quality sat).time_score
      ∧ (initiative_health_row today init roi eff quality sat).time_score ≤ 25
      ∧ 0 ≤ (initiative_health_row today init roi eff quality sat).financial_score
      ∧ (initiative_health_row today init roi eff quality sat).financial_score ≤ 30
      ∧ 0 ≤ (initiative_health_row today init roi eff quality sat).operational_score
      ∧ (initiative_health_row today init roi eff quality sat).operational_score ≤ 20
      ∧ 0 ≤ (initiative_health_row today init roi eff quality sat).health_score
      ∧ (initiative_health_row today init roi eff quality sat).health_score ≤ 100 := by
  have hb := budget_score_bounds (fdiv init.budget_spent init.budget_allocated)
  have ht := time_score_bounds init.status
    (fdiv ((today - init.start_date : ℤ) : ℚ) ((init.target_end_date - init.start_date : ℤ) : ℚ))
  have hf := financial_score_bounds roi
  have ho := operational_score_bounds eff quality sat
  refine ⟨rfl, hb.1, hb.2, ht.1, ht.2, hf.1, hf.2, ho.1, ho.2, ?_, ?_⟩
  · show 0 ≤ budget_score _ + time_score _ _ + financial_score _ + operational_score _ _ _
    linarith [hb.1, ht.1, hf.1, ho.1]
  · show budget_score _ + time_score _ _ + financial_score _ + operational_score _ _ _ ≤ 100
    linarith [hb.2, ht.2, hf.2, ho.2]

/-! Evaluation lemmas for `time_score` and integer-column division. -/

lemma time_score_val (status : Status) (hs : status ≠ Status.completed) (q : ℚ) :
    time_score status (EFloat.val q) = time_band_spec q := by
  simp only [time_score, time_band_spec, EFloat.leb, decide_eq_true_eq, if_neg hs]

lemma time_score_nan (status : Status) (hs : status ≠ Status.completed) :
    time_score status EFloat.nan = 0 := by
  simp [time_score, EFloat.leb, hs]

lemma time_score_pinf (status : Status) (hs : status ≠ Status.completed) :
    time_score status EFloat.pinf = 0 := by
  simp [time_score, EFloat.leb, hs]

lemma time_score_ninf (status : Status) (hs : status ≠ Status.completed) :
    time_score status EFloat.ninf = 20 := by
  simp [time_score, EFloat.leb, hs]

lemma fdiv_int (d dur : ℤ) :
    fdiv (d : ℚ) (dur : ℚ)
      = if dur = 0 then
          (if d = 0 then EFloat.nan else if 0 < d then EFloat.pinf else EFloat.ninf)
        else EFloat.val ((d : ℚ) / (dur : ℚ)) := by
  by_cases h : dur = 0
  · subst h
    simp [fdiv, EFloat.div, Int.cast_eq_zero, Int.cast_pos]
  · simp [fdiv, EFloat.div, Int.cast_eq_zero, h]

/-- C6 (amended): for every initiative, `time_score` is 25 when status is
Completed; when the planned duration is nonzero it is the spec's band
function of `time_progress = days_since_start / total_duration` (20 / 15 /
5 / 0 at the 0.9 / 1.0 / 1.2 thresholds); and when the planned duration is
zero the float quotient is NaN or an infinity: with `days_since_start ≥ 0`
every band test fails and the score is the otherwise-band 0, but with
`days_since_start < 0` (start date in the future) the quotient is -inf,
which satisfies the first band test, and the score is 20 - not 0 as the
claim states. -/
theorem C6_time_score_bands (today : ℤ) (init : Initiative)
    (roi eff quality sat : Option ℚ) :
    (init.status = Status.completed →
        (initiative_health_row today init roi eff quality sat).time_score = 25)
    ∧ (init.status ≠ Status.completed →
        (initiative_health_row today init roi eff quality sat).total_duration ≠ 0 →
        (initiative_health_row today init roi eff quality sat).time_score
          = time_band_spec
              (((initiative_health_row today init roi eff quality sat).days_since_start : ℚ)
                / ((initiative_health_row today init roi eff quality sat).total_duration : ℚ)))
    ∧ (init.status ≠ Status.completed →
        (initiative_health_row today init roi eff quality sat).total_duration = 0 →
        0 ≤ (initiative_health_row today init roi eff quality sat).days_since_start →
        (initiative_health_row today init roi eff quality sat).time_score = 0)
    ∧ (init.status ≠ Status.completed →
        (initiative_health_row today init roi eff quality sat).total_duration = 0 →
        (initiative_health_row today init roi eff quality sat).days_since_start < 0 →
        (initiative_health_row today init roi eff quality sat).time_score = 20) := by
  have hts : (initiative_health_row today init roi eff quality sat).time_score
      = time_score init.status (fdiv ((today - init.start_date : ℤ) : ℚ)
          ((init.target_end_date - init.start_date : ℤ) : ℚ)) := rfl
  have hd : (initiative_health_row today init roi eff quality sat).days_since_start
      = today - init.start_date := rfl
  have hdur : (initiative_health_row today init roi eff quality sat).total_duration
      = init.target_end_date - init.start_date := rfl
  refine ⟨?_, ?_, ?_, ?_⟩
  · intro hc
    rw [hts]
    simp [time_score, hc]
  · intro hs hdz
    rw [hdur] at hdz
    rw [hts, hd, hdur, fdiv_int, if_neg hdz, time_score_val init.status hs]
  · intro hs hdz hdn
    rw [hdur] at hdz
    rw [hd] at hdn
    rw [hts, fdiv_int, if_pos hdz]
    rcases hdn.lt_or_eq with hpos | heq
    · rw [if_neg (by omega), if_pos hpos]
      exact time_score_pinf init.status hs
    · rw [if_pos heq.symm]
      exact time_score_nan init.status hs
  · intro hs hdz hdn
    rw [hdur] at hdz
    rw [hd] at hdn
    rw [hts, fdiv_int, if_pos hdz, if_neg (by omega), if_neg (by omega)]
    exact time_score_ninf init.status hs

/-- A non-Completed initiative whose start date equals its target end date
and lies in the future of the computation date. -/
def c6_init : Initiative :=
  { name := "future zero duration", start_date := 10, target_end_date := 10,
    budget_allocated := 100, budget_spent := 80, status := Status.inProgress }

/-- C6 (counterexample): a non-Completed initiative with zero planned
duration and a future start date gets time_score 20 (its time progress is
-inf), not the otherwise-band 0 the claim assigns to every zero-duration
non-Completed initiative. -/
theorem C6_counterexample :
    c6_init.status ≠ Status.completed
    ∧ (initiative_health_row 5 c6_init none none none none).total_duration = 0
    ∧ (initiative_health_row 5 c6_init none none none none).days_since_start < 0
    ∧ (initiative_health_row 5 c6_init none none none none).time_score = 20
    ∧ (initiative_health_row 5 c6_init none none none none).time_score ≠ 0 := by
  refine ⟨by decide, by decide, by decide, ?_, ?_⟩ <;>
    norm_num [initiative_health_row, time_score, fdiv, EFloat.div, EFloat.leb, c6_init] <;>
    decide

/-- Rows exercising both the Completed band and the zero-duration band of
the amended time-score statement. -/
def c6_completed_init : Initiative :=
  { name := "done", start_date := 0, target_end_date := 10,
    budget_allocated := 100, budget_spent := 90, status := Status.completed }

/-- Witness for C6: the theorem applied at concrete inputs, discharging the
hypotheses of its first and third cases. -/
theorem C6_witness :
    (initiative_health_row 20 c6_completed_init none none none none).time_score = 25
    ∧ (initiative_health_row 15 c6_init none none none none).time_score = 0 :=
  ⟨(C6_time_score_bands 20 c6_completed_init none none none none).1 rfl,
   (C6_time_score_bands 15 c6_init none none none none).2.2.1 (by decide) (by decide) (by decide)⟩

/-- C7: `health_status` is a pure function of `health_score` alone, with
Excellent iff score ≥ 80, Good iff 65 ≤ score < 80, Warning iff
50 ≤ score < 65, Critical iff score < 50; in particular 79.9 maps to Good,
80 to Excellent, 64.9 to Warning, 65 to Good, 49.9 to Critical and 50 to
Warning, and every health row's stored status is this function of its
stored score. -/
theorem C7_health_status_classification :
    (∀ x : ℚ,
        (health_status_of x = HealthLevel.excellent ↔ 80 ≤ x)
      ∧ (health_status_of x = HealthLevel.good ↔ 65 ≤ x ∧ x < 80)
      ∧ (health_status_of x = HealthLevel.warning ↔ 50 ≤ x ∧ x < 65)
      ∧ (health_status_of x = HealthLevel.critical ↔ x < 50))
    ∧ health_status_of (799/10) = HealthLevel.good
    ∧ health_status_of 80 = HealthLevel.excellent
    ∧ health_status_of (649/10) = HealthLevel.warning
    ∧ health_status_of 65 = HealthLevel.good
    ∧ health_status_of (499/10) = HealthLevel.critical
    ∧ health_status_of 50 = HealthLevel.warning
    ∧ ∀ (today : ℤ) (init : Initiative) (roi eff quality sat : Option ℚ),
        (initiative_health_row today init roi eff quality sat).health_status
          = health_status_of (initiative_health_row today init roi eff quality sat).health_score := by
  refine ⟨fun x => ⟨health_status_of_excellent_iff x, health_status_of_good_iff x,
      health_status_of_warning_iff x, health_status_of_critical_iff x⟩,
    ?_, ?_, ?_, ?_, ?_, ?_, fun _ _ _ _ _ _ => rfl⟩ <;>
    norm_num [health_status_of]

/-- C9: the budget score is exactly the spec's piecewise function of the
utilization ratio u = spent/allocated: 25 on [0.8,1.0], 20 on [0.6,0.8)
and (1.0,1.1], 10 on [0.4,0.6) and (1.1,1.2], 0 otherwise; and every health
row's budget_score is this function of its budget_utilization column, which
is the float quotient spent/allocated. -/
theorem C9_budget_score_piecewise :
    (∀ u : ℚ, budget_score (EFloat.val u) = budget_score_spec u)
    ∧ ∀ (today : ℤ) (init : Initiative) (roi eff quality sat : Option ℚ),
        (initiative_health_row today init roi eff quality sat).budget_score
          = budget_score (initiative_health_row today init roi eff quality sat).budget_utilization
        ∧ (initiative_health_row today init roi eff quality sat).budget_utilization
          = fdiv init.budget_spent init.budget_allocated := by
  refine ⟨?_, fun _ _ _ _ _ _ => ⟨rfl, rfl⟩⟩
  intro u
  simp only [budget_score, budget_score_spec, EFloat.leb, EFloat.ltb,
    Bool.and_eq_true, Bool.or_eq_true, decide_eq_true_eq]

/-! Risk-factor lemmas. -/

lemma identify_risk_factors_eq (bu tp : EFloat) (status : Status) (roi sat : Option ℚ) :
    identify_risk_factors bu tp status roi sat
      = (if EFloat.ltb (EFloat.val (11/10)) bu then ["Budget Overrun"] else [])
        ++ (if EFloat.ltb (EFloat.val 1) tp && decide (status ≠ Status.completed)
            then ["Schedule Delay"] else [])
        ++ (if col_lt roi 5 then ["Low ROI"] else [])
        ++ (if col_lt sat 6 then ["Team Satisfaction"] else []) := by
  simp only [identify_risk_factors]
  split_ifs <;> rfl

lemma col_lt_eq_true_iff (x : Option ℚ) (c : ℚ) :
    col_lt x c = true ↔ ∃ v, x = some v ∧ v < c := by
  cases x <;> simp [col_lt]

lemma mem_identify_risk_factors (bu tp : EFloat) (status : Status) (roi sat : Option ℚ) :
    ("Budget Overrun" ∈ identify_risk_factors bu tp status roi sat
        ↔ EFloat.ltb (EFloat.val (11/10)) bu = true)
    ∧ ("Schedule Delay" ∈ identify_risk_factors bu tp status roi sat
        ↔ (EFloat.ltb (EFloat.val 1) tp && decide (status ≠ Status.completed)) = true)
    ∧ ("Low ROI" ∈ identify_risk_factors bu tp status roi sat ↔ col_lt roi 5 = true)
    ∧ ("Team Satisfaction" ∈ identify_risk_factors bu tp status roi sat ↔ col_lt sat 6 = true)
    ∧ (identify_risk_factors bu tp status roi sat).Sublist
        ["Budget Overrun", "Schedule Delay", "Low ROI", "Team Satisfaction"] := by
  rw [identify_risk_factors_eq]
  split_ifs <;> simp_all

/-- C2 (amended): for every initiative, risk_factors is order-preserving (a
sublist of the canonical four-tag list) and contains exactly: Budget
Overrun iff budget_utilization > 1.1; Schedule Delay iff time_progress >
1.0 and status ≠ Completed; Low ROI iff the merged mean ROI is present and
< 5 - a missing aggregate is a NaN cell whose comparison is false, so it
yields NO flag, not the flag the claim's treated-as-0 default implies; Team
Satisfaction iff the merged mean employee satisfaction is present and < 6
(for a missing aggregate this agrees with the claim's default of 8: no
flag).  No other tag ever appears. -/
theorem C2_risk_factors_characterization (today : ℤ) (init : Initiative)
    (roi eff quality sat : Option ℚ) :
    ("Budget Overrun" ∈ (initiative_health_row today init roi eff quality sat).risk_factors
        ↔ EFloat.ltb (EFloat.val (11/10))
            (initiative_health_row today init roi eff quality sat).budget_utilization = true)
    ∧ ("Schedule Delay" ∈ (initiative_health_row today init roi eff quality sat).risk_factors
        ↔ EFloat.ltb (EFloat.val 1)
              (initiative_health_row today init roi eff quality sat).time_progress = true
            ∧ init.status ≠ Status.completed)
    ∧ ("Low ROI" ∈ (initiative_health_row today init roi eff quality sat).risk_factors
        ↔ ∃ v, roi = some v ∧ v < 5)
    ∧ ("Team Satisfaction" ∈ (initiative_health_row today init roi eff quality sat).risk_factors
        ↔ ∃ v, sat = some v ∧ v < 6)
    ∧ (initiative_health_row today init roi eff quality sat).risk_factors.Sublist
        ["Budget Overrun", "Schedule Delay", "Low ROI", "Team Satisfaction"] := by
  have h := mem_identify_risk_factors (fdiv init.budget_spent init.budget_allocated)
    (fdiv ((today - init.start_date : ℤ) : ℚ) ((init.target_end_date - init.start_date : ℤ) : ℚ))
    init.status roi sat
  simp only [Bool.and_eq_true, decide_eq_true_eq, col_lt_eq_true_iff] at h
  exact h

/-- An initiative with no financial and no operational samples: both merged
aggregates are missing. -/
def c2_init : Initiative :=
  { name := "no financial samples", start_date := 0, target_end_date := 100,
    budget_allocated := 100, budget_spent := 50, status := Status.inProgress }

/-- C2 (counterexample): for an initiative whose financial aggregate is
missing, the claim's reading (missing ROI treated as 0, and 0 < 5) demands
the Low ROI tag, but the code's NaN comparison is false and the tag is
absent. -/
theorem C2_counterexample :
    (initiative_health_row 0 c2_init none none none none).roi_percentage = none
    ∧ Option.getD (none : Option ℚ) 0 < (5 : ℚ)
    ∧ "Low ROI" ∉ (initiative_health_row 0 c2_init none none none none).risk_factors := by
  refine ⟨rfl, by norm_num, ?_⟩
  norm_num [initiative_health_row, identify_risk_factors, fdiv, EFloat.div, EFloat.ltb,
    col_lt, c2_init]

/-! Prediction lemmas. -/

lemma pymax_val (t c : ℚ) : pymax (EFloat.val t) (EFloat.val c) = EFloat.val (max t c) := by
  simp only [pymax, EFloat.ltb, decide_eq_true_eq]
  rcases le_or_lt c t with h | h
  · rw [if_neg (not_lt.mpr h), max_eq_left h]
  · rw [if_pos h, max_eq_right h.le]

lemma ediv_val_of_ne (a m : ℚ) (hm : m ≠ 0) :
    EFloat.div (EFloat.val a) (EFloat.val m) = EFloat.val (a / m) := by
  simp [EFloat.div, hm]

lemma ltb_zero_of_leb_zero (tp : EFloat) (h : EFloat.leb tp (EFloat.val 0) = true) :
    EFloat.ltb (EFloat.val 0) tp = false := by
  cases tp <;> simp_all [EFloat.leb, EFloat.ltb]

/-- C8: for every initiative, the predicted completion date is the target
end date unchanged when status is Completed; otherwise, when time_progress
is a positive (finite) value t, it is start_date plus
days_since_start / max(t, 0.1) days; and when time_progress ≤ 0 it is the
target end date. -/
theorem C8_predicted_completion_date (today : ℤ) (init : Initiative)
    (roi eff quality sat : Option ℚ) :
    (init.status = Status.completed →
        (initiative_health_row today init roi eff quality sat).predicted_completion_date
          = some (init.target_end_date : ℚ))
    ∧ (∀ t : ℚ, init.status ≠ Status.completed →
        (initiative_health_row today init roi eff quality sat).time_progress = EFloat.val t →
        0 < t →
        (initiative_health_row today init roi eff quality sat).predicted_completion_date
          = some ((init.start_date : ℚ)
              + ((initiative_health_row today init roi eff quality sat).days_since_start : ℚ)
                / max t (1/10)))
    ∧ (init.status ≠ Status.completed →
        EFloat.leb (initiative_health_row today init roi eff quality sat).time_progress
            (EFloat.val 0) = true →
        (initiative_health_row today init roi eff quality sat).predicted_completion_date
          = some (init.target_end_date : ℚ)) := by
  have hP : (initiative_health_row today init roi eff quality sat).predicted_completion_date
      = predict_completion_date init.status
          (fdiv ((today - init.start_date : ℤ) : ℚ) ((init.target_end_date - init.start_date : ℤ) : ℚ))
          (today - init.start_date) init.start_date init.target_end_date := rfl
  refine ⟨?_, ?_, ?_⟩
  · intro hc
    rw [hP]
    simp [predict_completion_date, hc]
  · intro t hs htp hpos
    have htp' : fdiv ((today - init.start_date : ℤ) : ℚ)
        ((init.target_end_date - init.start_date : ℤ) : ℚ) = EFloat.val t := htp
    have hmax : max t (1/10 : ℚ) ≠ 0 := by positivity
    rw [hP]
    simp only [predict_completion_date, if_neg hs, htp', EFloat.ltb, decide_eq_true_eq,
      pymax_val, ediv_val_of_ne _ _ hmax, EFloat.toOption, if_pos hpos, Option.map_some]
    rfl
  · intro hs hle
    have hle' : EFloat.leb (fdiv ((today - init.start_date : ℤ) : ℚ)
        ((init.target_end_date - init.start_date : ℤ) : ℚ)) (EFloat.val 0) = true := hle
    rw [hP]
    simp only [predict_completion_date, if_neg hs, ltb_zero_of_leb_zero _ hle']
    rfl

/-- An in-progress initiative halfway through its schedule at day 100. -/
def c5_init : Initiative :=
  { name := "long overdue", start_date := 0, target_end_date := 200,
    budget_allocated := 100, budget_spent := 50, status := Status.inProgress }

/-- Witness for C8: the theorem applied at concrete inputs, discharging the
hypotheses of its Completed case and of its extrapolation case (time
progress 1/2). -/
theorem C8_witness :
    (initiative_health_row 20 c6_completed_init none none none none).predicted_completion_date
        = some (c6_completed_init.target_end_date : ℚ)
    ∧ (initiative_health_row 100 c5_init none none none none).predicted_completion_date
        = some ((c5_init.start_date : ℚ)
            + ((initiative_health_row 100 c5_init none none none none).days_since_start : ℚ)
              / max (1/2 : ℚ) (1/10)) :=
  ⟨(C8_predicted_completion_date 20 c6_completed_init none none none none).1 rfl,
   (C8_predicted_completion_date 100 c5_init none none none none).2.1 (1/2)
     (by decide)
     (by norm_num [initiative_health_row, fdiv, EFloat.div, c5_init])
     (by norm_num)⟩

/-- C4: the at-risk bucket of `calculate_portfolio_metrics` is exactly the
naive filter of initiatives with health_score < 50 - count, name list and
allocated-budget sum - and, because the pipeline's health_status column is
the classification function of health_score (Critical iff score < 50), its
count equals the critical entry of the health distribution. -/
theorem C4_at_risk_bucket (now : ℚ) (l : List HealthRow) (fins : List FinSample)
    (h : ∀ r ∈ l, r.health_status = health_status_of r.health_score) :
    (calculate_portfolio_metrics now l fins).at_risk_count
        = (l.filter (fun r => decide (r.health_score < 50))).length
    ∧ (calculate_portfolio_metrics now l fins).at_risk_names
        = (l.filter (fun r => decide (r.health_score < 50))).map (fun r => r.name)
    ∧ (calculate_portfolio_metrics now l fins).at_risk_total_budget
        = ((l.filter (fun r => decide (r.health_score < 50))).map
            (fun r => r.budget_allocated)).sum
    ∧ (calculate_portfolio_metrics now l fins).at_risk_count
        = (calculate_portfolio_metrics now l fins).dist_critical := by
  refine ⟨rfl, rfl, ?_, ?_⟩
  · show (if 0 < (l.filter (fun r => decide (r.health_score < 50))).length
        then ((l.filter (fun r => decide (r.health_score < 50))).map
          (fun r => r.budget_allocated)).sum else 0)
      = ((l.filter (fun r => decide (r.health_score < 50))).map
          (fun r => r.budget_allocated)).sum
    by_cases hlen : 0 < (l.filter (fun r => decide (r.health_score < 50))).length
    · rw [if_pos hlen]
    · rw [if_neg hlen]
      have hnil : l.filter (fun r => decide (r.health_score < 50)) = [] :=
        List.eq_nil_of_length_eq_zero (Nat.eq_zero_of_not_pos hlen)
      rw [hnil]
      simp
  · show (l.filter (fun r => decide (r.health_score < 50))).length
      = (l.filter (fun r => decide (r.health_status = HealthLevel.critical))).length
    congr 1
    refine (List.filter_congr ?_).symm
    intro r hr
    rw [h r hr]
    exact decide_eq_decide.mpr (health_status_of_critical_iff r.health_score)

/-- Two pipeline rows, one critical (health 30: budget band 0, time band 0,
financial default band 10, operational clamped 20) and one excellent. -/
def c4_rows : List HealthRow :=
  [initiative_health_row 20
    { name := "troubled", start_date := 0, target_end_date := 10,
      budget_allocated := 100, budget_spent := 300, status := Status.inProgress }
    none none none none,
   initiative_health_row 20
    { name := "healthy", start_date := 0, target_end_date := 10,
      budget_allocated := 100, budget_spent := 90, status := Status.completed }
    none none none none]

/-- Witness for C4: the theorem applied to concrete pipeline rows, whose
stored status is by construction the classification of their score. -/
theorem C4_witness :
    (∀ r ∈ c4_rows, r.health_status = health_status_of r.health_score)
    ∧ (calculate_portfolio_metrics 0 c4_rows []).at_risk_count
        = (calculate_portfolio_metrics 0 c4_rows []).dist_critical :=
  ⟨by intro r hr; fin_cases hr <;> rfl,
   (C4_at_risk_bucket 0 c4_rows [] (by intro r hr; fin_cases hr <;> rfl)).2.2.2⟩

lemma col_le_eq_true_iff (x : Option ℚ) (c : ℚ) :
    col_le x c = true ↔ ∃ v, x = some v ∧ v ≤ c := by
  cases x <;> simp [col_le]

/-- C5 (amended): the upcoming-completions bucket contains exactly the
initiatives whose predicted completion date is at most 30 days after the
computation timestamp - the filter has NO lower bound, so an initiative
whose predicted date lies in the past is also a member, contrary to the
claim's "between the timestamp and 30 days after it". -/
theorem C5_upcoming_completions (now : ℚ) (l : List HealthRow) (fins : List FinSample) :
    (calculate_portfolio_metrics now l fins).upcoming_count
        = (l.filter (fun r => col_le r.predicted_completion_date (now + 30))).length
    ∧ (calculate_portfolio_metrics now l fins).upcoming_names.length
        = (calculate_portfolio_metrics now l fins).upcoming_count
    ∧ ∀ n, n ∈ (calculate_portfolio_metrics now l fins).upcoming_names
        ↔ ∃ r ∈ l, (∃ d, r.predicted_completion_date = some d ∧ d ≤ now + 30)
            ∧ r.name = n := by
  refine ⟨rfl, ?_, ?_⟩
  · show ((l.filter (fun r => col_le r.predicted_completion_date (now + 30))).map
        (fun r => r.name)).length
      = (l.filter (fun r => col_le r.predicted_completion_date (now + 30))).length
    exact List.length_map _ _
  · intro n
    show n ∈ (l.filter (fun r => col_le r.predicted_completion_date (now + 30))).map
        (fun r => r.name) ↔ _
    simp only [List.mem_map, List.mem_filter, col_le_eq_true_iff]
    constructor
    · rintro ⟨r, ⟨hr, hd⟩, hn⟩
      exact ⟨r, hr, hd, hn⟩
    · rintro ⟨r, hr, hd, hn⟩
      exact ⟨r, ⟨hr, hd⟩, hn⟩

/-- C5 (counterexample): with the computation timestamp at day 300, the
initiative predicted to have completed at day 200 - 100 days in the past -
is a member of the upcoming-completions bucket, which the claim forbids. -/
theorem C5_counterexample :
    (initiative_health_row 100 c5_init none none none none).predicted_completion_date
        = some 200
    ∧ (200 : ℚ) < 300
    ∧ "long overdue" ∈ (calculate_portfolio_metrics 300
        [initiative_health_row 100 c5_init none none none none] []).upcoming_names := by
  refine ⟨?_, by norm_num, ?_⟩
  · norm_num [initiative_health_row, predict_completion_date, fdiv, EFloat.div, EFloat.ltb,
      pymax, EFloat.toOption, c5_init]
  · norm_num [calculate_portfolio_metrics, col_le, initiative_health_row,
      predict_completion_date, fdiv, EFloat.div, EFloat.ltb, pymax, EFloat.toOption, c5_init]

/-- C10: `create_executive_summary` divides the completed count by
`total_initiatives` with no guard: with zero initiatives the Python int
division raises ZeroDivisionError and no summary frame is produced; with a
positive total no division fails and the summary always has exactly 4
rows. -/
theorem C10_executive_summary_guard (pm : PortfolioMetrics) :
    (pm.total_initiatives = 0 → create_executive_summary pm = none)
    ∧ (0 < pm.total_initiatives →
        ∃ rows, create_executive_summary pm = some rows ∧ rows.length = 4) := by
  constructor
  · intro h
    simp [create_executive_summary, h]
  · intro h
    simp only [create_executive_summary, if_neg h.ne']
    exact ⟨_, rfl, rfl⟩

/-- A portfolio-metrics record for an empty portfolio, as the unguarded
sums produce it. -/
def c10_pm_zero : PortfolioMetrics :=
  { total_initiatives := 0, active_initiatives := 0, completed_initiatives := 0,
    total_budget_allocated := 0, total_budget_spent := 0,
    budget_utilization_rate := EFloat.nan, total_financial_impact := 0,
    portfolio_roi := EFloat.nan, dist_excellent := 0, dist_good := 0,
    dist_warning := 0, dist_critical := 0, at_risk_count := 0,
    at_risk_total_budget := 0, at_risk_names := [], upcoming_count := 0,
    upcoming_names := [] }

/-- A portfolio-metrics record for a three-initiative portfolio. -/
def c10_pm_three : PortfolioMetrics :=
  { total_initiatives := 3, active_initiatives := 1, completed_initiatives := 2,
    total_budget_allocated := 300, total_budget_spent := 270,
    budget_utilization_rate := EFloat.val 90, total_financial_impact := 400,
    portfolio_roi := EFloat.val 48, dist_excellent := 2, dist_good := 1,
    dist_warning := 0, dist_critical := 0, at_risk_count := 0,
    at_risk_total_budget := 0, at_risk_names := [], upcoming_count := 0,
    upcoming_names := [] }

/-- Witness for C10: the theorem applied at a zero-initiative record (no
frame) and at a three-initiative record (a 4-row frame). -/
theorem C10_witness :
    create_executive_summary c10_pm_zero = none
    ∧ ∃ rows, create_executive_summary c10_pm_three = some rows ∧ rows.length = 4 :=
  ⟨(C10_executive_summary_guard c10_pm_zero).1 rfl,
   (C10_executive_summary_guard c10_pm_three).2 (by norm_num [c10_pm_three])⟩

/-- C3 (code bug witness): on an input whose summed allocated and spent
budgets are zero (the empty portfolio), `calculate_portfolio_metrics` does
not raise, but neither quotient is guarded: `0/0` is NaN and it propagates
into `budget_utilization_rate` and `portfolio_roi` instead of the sentinel
the spec mandates. -/
theorem C3_zero_sums_propagate_nan :
    (calculate_portfolio_metrics 0 [] []).budget_utilization_rate = EFloat.nan
      ∧ (calculate_portfolio_metrics 0 [] []).portfolio_roi = EFloat.nan
      ∧ (calculate_portfolio_metrics 0 [] []).total_budget_allocated = 0
      ∧ (calculate_portfolio_metrics 0 [] []).total_budget_spent = 0 := by
  norm_num [calculate_portfolio_metrics, fdiv, EFloat.div, EFloat.mul, EFloat.sub]

end TransformationTracker
